import Mathlib

/-!
Verification of the fraud-scoring and referral-validation engine of the
Tell-A-Friend referral application.

The embedding below is a shallow model of the server actions
detectFraudAction, validateReferralCodeAction and validatePurchaseAction.
External collaborators (the relational record store, the Clerk identity
provider, the purchase-count queries) are modelled as a Store value; the
nondeterministic timestamp used for the temporary customer id is made an
explicit parameter. Monetary amounts are rationals; scores are naturals.
-/

namespace TellAFriend

/-- A row of the users table: primary key, Clerk user id (not null in the
schema, but guarded by a JS truthiness check in the action, hence the
explicit empty-string case), and the nullable unique referral code. -/
structure DbUser where
  id : String
  clerkUserId : String
  referralCode : Option String
  deriving Repr, DecidableEq

/-- One email address record of a Clerk user; verificationStatus is none
when the verification object or its status field is absent. -/
structure EmailAddress where
  id : String
  verificationStatus : Option String
  deriving Repr, DecidableEq

/-- The part of a Clerk user record the fraud check reads. -/
structure ClerkUser where
  primaryEmailAddressId : Option String
  emailAddresses : List EmailAddress
  deriving Repr, DecidableEq

/-- External state visible to the actions: the users table, the Clerk
lookup (which may fail, modelling a thrown error), and the two purchase
counts per IP address (all-time and last 24 hours). -/
structure Store where
  users : List DbUser
  clerkLookup : String → Except String ClerkUser
  ipPurchaseCount : String → Nat
  recentIpPurchaseCount : String → Nat

/-- FRAUD_DETECTION_CONFIG.MIN_PURCHASE_AMOUNT. -/
def MIN_PURCHASE_AMOUNT : ℚ := 50

/-- FRAUD_DETECTION_CONFIG.MAX_PURCHASES_PER_IP. -/
def MAX_PURCHASES_PER_IP : Nat := 5

/-- FRAUD_DETECTION_CONFIG.MAX_PURCHASES_PER_DAY. -/
def MAX_PURCHASES_PER_DAY : Nat := 10

/-- FRAUD_DETECTION_CONFIG.REQUIRE_EMAIL_VERIFICATION. -/
def REQUIRE_EMAIL_VERIFICATION : Bool := true

/-- Input parameters of detectFraudAction. -/
structure FraudDetectionParams where
  amount : ℚ
  ipAddress : String
  customerId : String
  referrerId : String
  referralCode : String
  deriving Repr, DecidableEq

/-- The fraud-score payload returned by detectFraudAction. -/
structure FraudScore where
  score : Nat
  flags : List String
  isLikelyFraud : Bool
  deriving Repr, DecidableEq

/-- The ActionState envelope of the server actions: on failure data is
absent. -/
structure ActionState (α : Type) where
  isSuccess : Bool
  message : String
  data : Option α
  deriving Repr, DecidableEq

/-- Check 1 of detectFraudAction: minimum purchase amount. Each signal is
modelled as the pair of its score contribution and the flags it pushes. -/
def amountSignal (amount : ℚ) : Nat × List String :=
  if amount < MIN_PURCHASE_AMOUNT then
    (30, ["Purchase amount below minimum threshold"])
  else (0, [])

/-- The verified-primary-email condition of check 2: there is a primary
email address (id equal to primaryEmailAddressId) whose verification
status is present and equal to "verified". -/
def primaryEmailVerified (cu : ClerkUser) : Bool :=
  match cu.emailAddresses.find? (fun e => cu.primaryEmailAddressId == some e.id) with
  | some e => e.verificationStatus == some "verified"
  | none => false

/-- Check 2 of detectFraudAction: email verification via the Clerk lookup.
The customer row is looked up by id; if it exists and has a truthy
clerkUserId, the Clerk user is fetched. A thrown lookup error is caught
and degraded to the flag "Unable to verify email status" with no score
contribution; an unverified primary email contributes 40. -/
def emailSignal (store : Store) (customerId : String) : Nat × List String :=
  if REQUIRE_EMAIL_VERIFICATION then
    match store.users.find? (fun u => u.id == customerId) with
    | some customer =>
      if customer.clerkUserId ≠ "" then
        match store.clerkLookup customer.clerkUserId with
        | Except.ok cu =>
          if primaryEmailVerified cu then (0, [])
          else (40, ["Email not verified"])
        | Except.error _ => (0, ["Unable to verify email status"])
      else (0, [])
    | none => (0, [])
  else (0, [])

/-- Check 3 of detectFraudAction: self-referral. -/
def selfReferralSignal (customerId referrerId : String) : Nat × List String :=
  if customerId == referrerId then (100, ["Self-referral detected"])
  else (0, [])

/-- First half of check 4: all-time purchases from the same IP. Runs only
when the IP address is truthy (non-empty). -/
def ipCountSignal (store : Store) (ipAddress : String) : Nat × List String :=
  if ipAddress ≠ "" then
    let n := store.ipPurchaseCount ipAddress
    if MAX_PURCHASES_PER_IP ≤ n then
      (50, ["Excessive purchases from IP address: " ++ toString n])
    else (0, [])
  else (0, [])

/-- Second half of check 4: purchases from the same IP in the last 24
hours. Runs only when the IP address is truthy (non-empty). -/
def recentIpCountSignal (store : Store) (ipAddress : String) : Nat × List String :=
  if ipAddress ≠ "" then
    let n := store.recentIpPurchaseCount ipAddress
    if MAX_PURCHASES_PER_DAY ≤ n then
      (70, ["Too many purchases from IP in 24 hours: " ++ toString n])
    else (0, [])
  else (0, [])

/-- The else branch of check 4: a missing (falsy) IP address is itself a
signal. -/
def missingIpSignal (ipAddress : String) : Nat × List String :=
  if ipAddress ≠ "" then (0, [])
  else (20, ["Missing IP address"])

/-- The checks of detectFraudAction, in the order the source evaluates
them. -/
def signals (store : Store) (p : FraudDetectionParams) : List (Nat × List String) :=
  [amountSignal p.amount,
   emailSignal store p.customerId,
   selfReferralSignal p.customerId p.referrerId,
   ipCountSignal store p.ipAddress,
   recentIpCountSignal store p.ipAddress,
   missingIpSignal p.ipAddress]

/-- The aggregation performed by detectFraudAction: the score is the sum
of the contributions, the flags are pushed in evaluation order, and the
decision compares the score with the threshold 70. -/
def aggregate (sigs : List (Nat × List String)) : FraudScore :=
  let fraudScore := (sigs.map Prod.fst).sum
  { score := fraudScore
    flags := (sigs.map Prod.snd).flatten
    isLikelyFraud := decide (70 ≤ fraudScore) }

/-- The pure core of detectFraudAction: sequentially accumulate the six
checks and decide against the threshold. -/
def detectFraud (store : Store) (p : FraudDetectionParams) : FraudScore :=
  aggregate (signals store p)

/-- detectFraudAction. All record-store reads are total in the model, so
the catch-all failure branch of the source is unreachable and the action
always succeeds. -/
def detectFraudAction (store : Store) (p : FraudDetectionParams) :
    ActionState FraudScore :=
  let fs := detectFraud store p
  { isSuccess := true
    message := if fs.isLikelyFraud then "Potential fraud detected"
               else "Fraud checks completed"
    data := some fs }

/-- Payload of validateReferralCodeAction. -/
structure ReferralCodeData where
  isValid : Bool
  referrerId : Option String
  deriving Repr, DecidableEq

/-- validateReferralCodeAction: a falsy or non-8-character code is
rejected as malformed before any store access; otherwise the users table
is searched for a matching referral code. -/
def validateReferralCodeAction (store : Store) (referralCode : String) :
    ActionState ReferralCodeData :=
  if referralCode == "" || referralCode.length ≠ 8 then
    { isSuccess := true
      message := "Invalid referral code format"
      data := some { isValid := false, referrerId := none } }
  else
    match store.users.find? (fun u => u.referralCode == some referralCode) with
    | none =>
      { isSuccess := true
        message := "Referral code not found"
        data := some { isValid := false, referrerId := none } }
    | some referrer =>
      { isSuccess := true
        message := "Valid referral code"
        data := some { isValid := true, referrerId := some referrer.id } }

/-- Payload of validatePurchaseAction. -/
structure PurchaseValidationData where
  isValid : Bool
  fraudScore : Option Nat
  deriving Repr, DecidableEq

/-- The JS or-with-empty-string fallback used for the resolved referrer
id. -/
def orEmptyString (s : Option String) : String :=
  match s with
  | some v => if v == "" then "" else v
  | none => ""

/-- validatePurchaseAction: resolve the referral code, fail fast on an
invalid code, then run fraud detection with a freshly generated temporary
customer id "temp-" plus the current timestamp (the timestamp is the
explicit parameter now). Store reads are total in the model, so
detectFraudAction always succeeds and its failure branch is unreachable.
The optional customerEmail parameter is accepted and, as in the source,
never used. -/
def validatePurchaseAction (store : Store) (now : Nat)
    (referralCode ipAddress : String) (amount : ℚ)
    (customerEmail : Option String) : ActionState PurchaseValidationData :=
  let codeResult := validateReferralCodeAction store referralCode
  if !codeResult.isSuccess || !((codeResult.data.map ReferralCodeData.isValid).getD false) then
    { isSuccess := false, message := "Invalid referral code", data := none }
  else
    let customerId := "temp-" ++ toString now
    let referrerId := orEmptyString (codeResult.data.bind ReferralCodeData.referrerId)
    let fs := detectFraud store
      { amount := amount, ipAddress := ipAddress, customerId := customerId
        referrerId := referrerId, referralCode := referralCode }
    if fs.isLikelyFraud then
      { isSuccess := false
        message := "Purchase flagged as potentially fraudulent: "
                   ++ String.intercalate ", " fs.flags
        data := none }
    else
      { isSuccess := true
        message := "Purchase validated successfully"
        data := some { isValid := true, fraudScore := some fs.score } }

/-- The malformed outcome of the resolver, a fixed constant independent of
the store. -/
def malformedOutcome : ActionState ReferralCodeData :=
  { isSuccess := true
    message := "Invalid referral code format"
    data := some { isValid := false, referrerId := none } }

/-- Stripping of display hyphens, as the purchase-form caller does with a
global hyphen replace before submitting a code. -/
def stripHyphens (code : String) : String :=
  String.mk (code.data.filter (fun c => !(c == '-')))

/-- The spec's notion of a malformed referral code: after stripping any
display hyphen, the code does not match the exact 8-character format.
Modelled from the spec for comparison with the source's check. -/
def specMalformed (code : String) : Bool :=
  (stripHyphens code).length ≠ 8

/-- A concrete store used by the witnesses: one registered user with
referral code ABCD1234, an unavailable identity provider, and no prior
purchases. -/
def wStore : Store :=
  { users := [{ id := "alice", clerkUserId := "clerk1", referralCode := some "ABCD1234" }]
    clerkLookup := fun _ => Except.error "unavailable"
    ipPurchaseCount := fun _ => 0
    recentIpPurchaseCount := fun _ => 0 }

/-- A concrete purchase attempt used by the witnesses. -/
def wParams : FraudDetectionParams :=
  { amount := 30, ipAddress := "", customerId := "temp-1"
    referrerId := "alice", referralCode := "ABCD1234" }

/-- C1: detectFraudAction always succeeds with the computed fraud score,
and the attempt is accepted (isLikelyFraud = false) exactly when the score
is strictly below 70; in particular a score of 69 is accepted and a score
of 70 or above is rejected. -/
theorem fraud_decision_threshold (store : Store) (p : FraudDetectionParams) :
    (detectFraudAction store p).data = some (detectFraud store p) ∧
    ((detectFraud store p).isLikelyFraud = false ↔ (detectFraud store p).score < 70) := by
  refine ⟨rfl, ?_⟩
  simp [detectFraud, aggregate]

/-- C10: the below-minimum-amount check contributes exactly 30 and the
flag "Purchase amount below minimum threshold" when the amount is strictly
below 50, and exactly nothing otherwise, independently of the store and of
every other input: the score and flags decompose into the amount signal
followed by the five remaining checks. -/
theorem below_minimum_amount_signal (store : Store) (p : FraudDetectionParams) :
    (detectFraud store p).score
      = (if p.amount < 50 then 30 else 0)
        + (((signals store p).tail.map Prod.fst).sum) ∧
    (detectFraud store p).flags
      = (if p.amount < 50 then ["Purchase amount below minimum threshold"] else [])
        ++ ((signals store p).tail.map Prod.snd).flatten := by
  by_cases h : p.amount < 50 <;>
    simp [detectFraud, aggregate, signals, amountSignal, MIN_PURCHASE_AMOUNT, h]

/-- C5: the flags of a fraud decision are always the triggered flags in
the fixed evaluator-list order (amount, email, self-referral, IP count,
24h IP count, missing IP), while the score is invariant under any
permutation of the evaluation order of the six checks. -/
theorem score_perm_invariant_flags_canonical (store : Store) (p : FraudDetectionParams) :
    ((detectFraud store p).flags = ((signals store p).map Prod.snd).flatten) ∧
    ∀ l, (signals store p).Perm l →
      (detectFraud store p).score = (l.map Prod.fst).sum := by
  refine ⟨rfl, fun l hl => ?_⟩
  simpa [detectFraud, aggregate] using (hl.map Prod.fst).sum_eq

/-- Witness for C5 at a concrete store and purchase attempt, evaluating
the six checks in reversed order. -/
theorem score_perm_invariant_flags_canonical_witness :
    ((detectFraud wStore wParams).flags = ((signals wStore wParams).map Prod.snd).flatten) ∧
    (detectFraud wStore wParams).score
      = (((signals wStore wParams).reverse).map Prod.fst).sum :=
  ⟨(score_perm_invariant_flags_canonical wStore wParams).1,
   (score_perm_invariant_flags_canonical wStore wParams).2
     (signals wStore wParams).reverse (List.reverse_perm _).symm⟩

/-- C3: when the customer identity equals the referrer identity and no
other check triggers (amount at least the minimum, the email check yields
neither score nor flag, a present IP address with both purchase counts
below their limits), the fraud decision is rejection with score exactly
100 and flags exactly ["Self-referral detected"]. -/
theorem self_referral_rejects (store : Store) (p : FraudDetectionParams)
    (hself : p.customerId = p.referrerId)
    (hamt : MIN_PURCHASE_AMOUNT ≤ p.amount)
    (hemail : emailSignal store p.customerId = (0, []))
    (hip : p.ipAddress ≠ "")
    (hc1 : store.ipPurchaseCount p.ipAddress < MAX_PURCHASES_PER_IP)
    (hc2 : store.recentIpPurchaseCount p.ipAddress < MAX_PURCHASES_PER_DAY) :
    detectFraud store p
      = { score := 100, flags := ["Self-referral detected"], isLikelyFraud := true } := by
  have hnlt : ¬ p.amount < MIN_PURCHASE_AMOUNT := not_lt.mpr hamt
  have hn1 : ¬ MAX_PURCHASES_PER_IP ≤ store.ipPurchaseCount p.ipAddress := not_le.mpr hc1
  have hn2 : ¬ MAX_PURCHASES_PER_DAY ≤ store.recentIpPurchaseCount p.ipAddress :=
    not_le.mpr hc2
  rw [hself] at hemail
  simp [detectFraud, aggregate, signals, amountSignal, selfReferralSignal,
        ipCountSignal, recentIpCountSignal, missingIpSignal, hself, hemail, hip,
        hnlt, hn1, hn2]

/-- Witness for C3: the concrete store wStore contains no user with the
attempt's customer id, so the email check is silent, and the attempt
refers to itself. -/
theorem self_referral_rejects_witness :
    detectFraud wStore
      { amount := 100, ipAddress := "9.9.9.9", customerId := "bob"
        referrerId := "bob", referralCode := "ABCD1234" }
      = { score := 100, flags := ["Self-referral detected"], isLikelyFraud := true } :=
  self_referral_rejects wStore
    { amount := 100, ipAddress := "9.9.9.9", customerId := "bob"
      referrerId := "bob", referralCode := "ABCD1234" }
    rfl (by norm_num [MIN_PURCHASE_AMOUNT]) (by decide) (by decide)
    (by decide) (by decide)

/-- C7: when the resolved customer row exists with a truthy Clerk user id,
the identity-provider lookup succeeds, and the primary email is not
verified, the email check contributes exactly 40 with the flag "Email not
verified"; combined with a below-minimum amount, distinct identities, a
present IP address and sub-limit purchase counts, the decision is score
exactly 70 and rejection. -/
theorem unverified_email_scores_forty (store : Store) (p : FraudDetectionParams)
    (cust : DbUser) (cu : ClerkUser)
    (hfind : store.users.find? (fun u => u.id == p.customerId) = some cust)
    (hclerk : cust.clerkUserId ≠ "")
    (hlookup : store.clerkLookup cust.clerkUserId = Except.ok cu)
    (hunv : primaryEmailVerified cu = false) :
    emailSignal store p.customerId = (40, ["Email not verified"]) ∧
    (p.amount < MIN_PURCHASE_AMOUNT → p.customerId ≠ p.referrerId →
     p.ipAddress ≠ "" →
     store.ipPurchaseCount p.ipAddress < MAX_PURCHASES_PER_IP →
     store.recentIpPurchaseCount p.ipAddress < MAX_PURCHASES_PER_DAY →
     detectFraud store p
       = { score := 70
           flags := ["Purchase amount below minimum threshold", "Email not verified"]
           isLikelyFraud := true }) := by
  have hemail : emailSignal store p.customerId = (40, ["Email not verified"]) := by
    simp [emailSignal, REQUIRE_EMAIL_VERIFICATION, hfind, hclerk, hlookup, hunv]
  refine ⟨hemail, fun hamt hne hip hc1 hc2 => ?_⟩
  have hnself : (p.customerId == p.referrerId) = false := beq_eq_false_iff_ne.mpr hne
  have hn1 : ¬ MAX_PURCHASES_PER_IP ≤ store.ipPurchaseCount p.ipAddress := not_le.mpr hc1
  have hn2 : ¬ MAX_PURCHASES_PER_DAY ≤ store.recentIpPurchaseCount p.ipAddress :=
    not_le.mpr hc2
  simp [detectFraud, aggregate, signals, amountSignal, selfReferralSignal,
        ipCountSignal, recentIpCountSignal, missingIpSignal, hemail, hip,
        hamt, hnself, hn1, hn2]

/-- A concrete store whose single user has an unverified primary email at
the identity provider. -/
def wStoreUnverified : Store :=
  { users := [{ id := "carol", clerkUserId := "clerk9", referralCode := some "ZZZZ9999" }]
    clerkLookup := fun c =>
      if c == "clerk9" then
        Except.ok { primaryEmailAddressId := some "em1"
                    emailAddresses := [{ id := "em1", verificationStatus := some "unverified" }] }
      else Except.error "unknown user"
    ipPurchaseCount := fun _ => 0
    recentIpPurchaseCount := fun _ => 0 }

/-- Witness for C7: an unverified customer buying below the minimum is
rejected with score exactly 70. -/
theorem unverified_email_scores_forty_witness :
    emailSignal wStoreUnverified "carol" = (40, ["Email not verified"]) ∧
    detectFraud wStoreUnverified
      { amount := 30, ipAddress := "9.9.9.9", customerId := "carol"
        referrerId := "dave", referralCode := "ZZZZ9999" }
      = { score := 70
          flags := ["Purchase amount below minimum threshold", "Email not verified"]
          isLikelyFraud := true } := by
  have h := unverified_email_scores_forty wStoreUnverified
    { amount := 30, ipAddress := "9.9.9.9", customerId := "carol"
      referrerId := "dave", referralCode := "ZZZZ9999" }
    { id := "carol", clerkUserId := "clerk9", referralCode := some "ZZZZ9999" }
    { primaryEmailAddressId := some "em1"
      emailAddresses := [{ id := "em1", verificationStatus := some "unverified" }] }
    (by decide) (by decide) rfl (by decide)
  exact ⟨h.1, h.2 (by norm_num [MIN_PURCHASE_AMOUNT]) (by decide) (by decide)
    (by decide) (by decide)⟩

/-- C8: when the resolved customer row exists with a truthy Clerk user id
but the identity-provider lookup throws, the email check degrades to the
flag "Unable to verify email status" with no score contribution, and the
decision is still computed normally from all six checks with that degraded
signal in the email position. -/
theorem degraded_identity_lookup_continues (store : Store) (p : FraudDetectionParams)
    (cust : DbUser) (err : String)
    (hfind : store.users.find? (fun u => u.id == p.customerId) = some cust)
    (hclerk : cust.clerkUserId ≠ "")
    (hlookup : store.clerkLookup cust.clerkUserId = Except.error err) :
    emailSignal store p.customerId = (0, ["Unable to verify email status"]) ∧
    detectFraud store p
      = aggregate [amountSignal p.amount,
                   (0, ["Unable to verify email status"]),
                   selfReferralSignal p.customerId p.referrerId,
                   ipCountSignal store p.ipAddress,
                   recentIpCountSignal store p.ipAddress,
                   missingIpSignal p.ipAddress] := by
  have hemail : emailSignal store p.customerId = (0, ["Unable to verify email status"]) := by
    simp [emailSignal, REQUIRE_EMAIL_VERIFICATION, hfind, hclerk, hlookup]
  exact ⟨hemail, by simp [detectFraud, signals, hemail]⟩

/-- Witness for C8: with wStore's identity provider down, the customer row
"alice" is found, the lookup fails, and the decision on a clean attempt is
still an accept with score 0 and only the degraded flag. -/
theorem degraded_identity_lookup_continues_witness :
    emailSignal wStore "alice" = (0, ["Unable to verify email status"]) ∧
    detectFraud wStore
      { amount := 100, ipAddress := "9.9.9.9", customerId := "alice"
        referrerId := "bob", referralCode := "ABCD1234" }
      = aggregate [amountSignal 100,
                   (0, ["Unable to verify email status"]),
                   selfReferralSignal "alice" "bob",
                   ipCountSignal wStore "9.9.9.9",
                   recentIpCountSignal wStore "9.9.9.9",
                   missingIpSignal "9.9.9.9"] :=
  degraded_identity_lookup_continues wStore
    { amount := 100, ipAddress := "9.9.9.9", customerId := "alice"
      referrerId := "bob", referralCode := "ABCD1234" }
    { id := "alice", clerkUserId := "clerk1", referralCode := some "ABCD1234" }
    "unavailable" (by decide) (by decide) rfl

/-- When no stored user carries the given customer id, the email check is
completely silent. -/
theorem emailSignal_of_no_user (store : Store) (cid : String)
    (h : ∀ u ∈ store.users, u.id ≠ cid) :
    emailSignal store cid = (0, []) := by
  have hfind : store.users.find? (fun u => u.id == cid) = none :=
    List.find?_eq_none.mpr (fun u hu => by simp [h u hu])
  simp [emailSignal, REQUIRE_EMAIL_VERIFICATION, hfind]

/-- The self-referral check is silent on distinct identities. -/
theorem selfReferralSignal_of_ne (cid rid : String) (h : cid ≠ rid) :
    selfReferralSignal cid rid = (0, []) := by
  simp [selfReferralSignal, beq_eq_false_iff_ne.mpr h]

/-- The or-with-empty-string fallback is the identity on present values. -/
theorem orEmptyString_some (v : String) : orEmptyString (some v) = v := by
  by_cases hv : v = ""
  · subst hv; rfl
  · simp [orEmptyString, beq_eq_false_iff_ne.mpr hv]

/-- The fraud decision depends on the customer id only through the email
check and the self-referral check. -/
theorem detectFraud_customerId_congr (store : Store) (amount : ℚ)
    (ip rid code cid1 cid2 : String)
    (h1 : emailSignal store cid1 = emailSignal store cid2)
    (h2 : selfReferralSignal cid1 rid = selfReferralSignal cid2 rid) :
    detectFraud store
      { amount := amount, ipAddress := ip, customerId := cid1
        referrerId := rid, referralCode := code }
      = detectFraud store
      { amount := amount, ipAddress := ip, customerId := cid2
        referrerId := rid, referralCode := code } := by
  simp [detectFraud, signals, h1, h2]

/-- The resolver either reports an invalid code (malformed or not found)
or returns the id of a stored user whose referral code matches. -/
theorem validateReferralCode_cases (store : Store) (code : String) :
    (validateReferralCodeAction store code).data.map ReferralCodeData.isValid = some false
    ∨ ∃ refUser ∈ store.users,
        validateReferralCodeAction store code
          = { isSuccess := true, message := "Valid referral code"
              data := some { isValid := true, referrerId := some refUser.id } } := by
  unfold validateReferralCodeAction
  split
  · left; rfl
  · split
    · left; rfl
    · next referrer heq =>
      right
      exact ⟨referrer, List.mem_of_find?_eq_some heq, rfl⟩

/-- C2: whenever the referral code is malformed (length other than 8) or
well-formed but unregistered, validatePurchaseAction fails with the
InvalidReferralCode outcome; the result is a fixed constant that does not
depend on the amount, the IP address, the identity provider or the
purchase counts, so no fraud score is computed. -/
theorem invalid_code_fail_fast (store : Store) (now : Nat)
    (referralCode ipAddress : String) (amount : ℚ) (customerEmail : Option String)
    (h : referralCode.length ≠ 8 ∨
         store.users.find? (fun u => u.referralCode == some referralCode) = none) :
    validatePurchaseAction store now referralCode ipAddress amount customerEmail
      = { isSuccess := false, message := "Invalid referral code", data := none } := by
  rcases h with h | h
  · simp [validatePurchaseAction, validateReferralCodeAction, h]
  · by_cases hlen : referralCode.length = 8
    · have hne : referralCode ≠ "" := by
        intro e; rw [e] at hlen; simp at hlen
      simp [validatePurchaseAction, validateReferralCodeAction, hlen,
            beq_eq_false_iff_ne.mpr hne, h]
    · simp [validatePurchaseAction, validateReferralCodeAction, hlen]

/-- Witness for C2 at a malformed three-character code. -/
theorem invalid_code_fail_fast_witness :
    validatePurchaseAction wStore 5 "FOO" "9.9.9.9" 100 none
      = { isSuccess := false, message := "Invalid referral code", data := none } :=
  invalid_code_fail_fast wStore 5 "FOO" "9.9.9.9" 100 none (Or.inl (by decide))

/-- C4: on the successful resolver path, validatePurchaseAction scores the
temporary customer id "temp-" plus the timestamp; whenever no stored user
carries that id, the email-verification check and the self-referral check
are both silent, so neither the weight 40 nor the weight 100 signal can
trigger. -/
theorem temp_customer_id_disables_signals (store : Store) (now : Nat)
    (code : String) (refUser : DbUser)
    (hlen : code.length = 8)
    (hfind : store.users.find? (fun u => u.referralCode == some code) = some refUser)
    (hids : ∀ u ∈ store.users, u.id ≠ "temp-" ++ toString now) :
    validateReferralCodeAction store code
      = { isSuccess := true, message := "Valid referral code"
          data := some { isValid := true, referrerId := some refUser.id } } ∧
    emailSignal store ("temp-" ++ toString now) = (0, []) ∧
    selfReferralSignal ("temp-" ++ toString now) refUser.id = (0, []) := by
  have hne : code ≠ "" := by
    intro e; rw [e] at hlen; simp at hlen
  refine ⟨?_, emailSignal_of_no_user store _ hids, ?_⟩
  · simp [validateReferralCodeAction, hlen, beq_eq_false_iff_ne.mpr hne, hfind]
  · exact selfReferralSignal_of_ne _ _
      (Ne.symm (hids refUser (List.mem_of_find?_eq_some hfind)))

/-- Witness for C4 at the concrete store wStore with timestamp 0. -/
theorem temp_customer_id_disables_signals_witness :
    validateReferralCodeAction wStore "ABCD1234"
      = { isSuccess := true, message := "Valid referral code"
          data := some { isValid := true, referrerId := some "alice" } } ∧
    emailSignal wStore ("temp-" ++ toString 0) = (0, []) ∧
    selfReferralSignal ("temp-" ++ toString 0) "alice" = (0, []) :=
  temp_customer_id_disables_signals wStore 0 "ABCD1234"
    { id := "alice", clerkUserId := "clerk1", referralCode := some "ABCD1234" }
    (by decide) (by decide) (by decide)

/-- Corrected C9: with identical inputs and an unchanged store none of
whose user ids equals either generated temporary id, the two calls return
identical results, in particular identical score and accepted outcome. -/
theorem validate_idempotent_for_nontemp_ids (store : Store) (n1 n2 : Nat)
    (code ip : String) (amount : ℚ) (email : Option String)
    (hids : ∀ u ∈ store.users,
      u.id ≠ "temp-" ++ toString n1 ∧ u.id ≠ "temp-" ++ toString n2) :
    validatePurchaseAction store n1 code ip amount email
      = validatePurchaseAction store n2 code ip amount email := by
  have h1 : ∀ u ∈ store.users, u.id ≠ "temp-" ++ toString n1 :=
    fun u hu => (hids u hu).1
  have h2 : ∀ u ∈ store.users, u.id ≠ "temp-" ++ toString n2 :=
    fun u hu => (hids u hu).2
  rcases validateReferralCode_cases store code with hcase | ⟨refUser, hmem, heq⟩
  · simp [validatePurchaseAction, hcase]
  · have hfs : detectFraud store
        { amount := amount, ipAddress := ip, customerId := "temp-" ++ toString n1
          referrerId := refUser.id, referralCode := code }
        = detectFraud store
        { amount := amount, ipAddress := ip, customerId := "temp-" ++ toString n2
          referrerId := refUser.id, referralCode := code } :=
      detectFraud_customerId_congr store amount ip refUser.id code _ _
        (by rw [emailSignal_of_no_user store _ h1, emailSignal_of_no_user store _ h2])
        (by rw [selfReferralSignal_of_ne _ _ (Ne.symm (h1 refUser hmem)),
                selfReferralSignal_of_ne _ _ (Ne.symm (h2 refUser hmem))])
    simp [validatePurchaseAction, heq, orEmptyString_some, hfs]

/-- Witness for the corrected C9 at the concrete store wStore with the
timestamps 0 and 1. -/
theorem validate_idempotent_for_nontemp_ids_witness :
    validatePurchaseAction wStore 0 "ABCD1234" "9.9.9.9" 100 none
      = validatePurchaseAction wStore 1 "ABCD1234" "9.9.9.9" 100 none :=
  validate_idempotent_for_nontemp_ids wStore 0 1 "ABCD1234" "9.9.9.9" 100 none
    (by decide)

/-- A store exhibiting the failure of C9 as stated: the referrer's own id
happens to equal the temporary id generated at timestamp 0. -/
def cxStore : Store :=
  { users := [{ id := "temp-0", clerkUserId := "clerk1", referralCode := some "ABCD1234" }]
    clerkLookup := fun _ => Except.error "down"
    ipPurchaseCount := fun _ => 0
    recentIpPurchaseCount := fun _ => 0 }

/-- Counterexample to C9 as stated: two calls with identical inputs and
unchanged store state, differing only in the internally generated
timestamp, give different outcomes (a self-referral rejection at
timestamp 0, an acceptance at timestamp 1). -/
theorem validate_timestamp_counterexample :
    validatePurchaseAction cxStore 0 "ABCD1234" "9.9.9.9" 100 none
      ≠ validatePurchaseAction cxStore 1 "ABCD1234" "9.9.9.9" 100 none := by
  decide

/-- Counterexample to C6 as stated: the code "ABCD-1234" matches the exact
8-character format once its display hyphen is stripped, so the spec's
predicate does not classify it malformed, yet the resolver rejects it with
the malformed outcome (its raw length is 9) even though the store
registers the stripped code. -/
theorem resolver_hyphen_counterexample :
    specMalformed "ABCD-1234" = false ∧
    validateReferralCodeAction wStore "ABCD-1234" = malformedOutcome := by
  exact ⟨by decide, rfl⟩

/-- Corrected C6: the resolver performs no hyphen stripping; it classifies
a code as malformed exactly when the raw string's length differs from 8
(hyphen stripping is done by the purchase-form caller before invocation).
The malformed outcome is a fixed constant attained identically for every
store, so the check is pure and performs no store access. -/
theorem resolver_malformed_iff_length (store : Store) (code : String) :
    validateReferralCodeAction store code = malformedOutcome ↔ code.length ≠ 8 := by
  by_cases h : code.length = 8
  · have hne : code ≠ "" := by
      intro e; rw [e] at h; simp at h
    simp only [validateReferralCodeAction, malformedOutcome, h,
               beq_eq_false_iff_ne.mpr hne]
    cases hf : store.users.find? (fun u => u.referralCode == some code) <;> simp [hf, h]
  · simp [validateReferralCodeAction, malformedOutcome, h]

end TellAFriend
